import Mathlib

/-!
# Verification of the Musubi FLUX Klein LoRA trainer node

A shallow embedding, in Lean 4, of the pipeline orchestrator and artifact
cache implemented in `musubi_flux_klein_lora_trainer.py`:

* the fingerprint computation `_compute_image_hash` (the SHA-256 digest is
  modelled as the exact byte stream fed to the hasher: two calls produce the
  same digest iff they feed the same stream, a collision-free idealization of
  the hash; raw bytes are represented by `Char` values, an injective
  relabeling);
* the cache lookup / self-healing / record logic of `train_flux_klein_lora`;
* dataset staging for directory-sourced samples;
* the three-stage external pipeline with fail-fast semantics and workspace
  teardown, modelled as a pure function from an explicit world (filesystem
  view, process exit codes) to a result, an ordered event trace and the
  updated cache;
* the training-command builder and the swap-budget clamping logic;
* artifact resolution and the auto-increment fresh-name search.

Python string primitives used by the source (`sorted`, `str.lower`,
`str.endswith`, `str.strip`, `str(int)`, `"|".join`) are re-implemented over
`List Char` by structural recursion so that every definition evaluates inside
the kernel.  Filesystem queries, process exits and external path resolution
(`folder_paths`) are explicit inputs, matching the spec's designation of them
as external collaborators.
-/

namespace MusubiFluxKlein

/-! ## String primitives (models of the Python built-ins used by the source) -/

/-- Code-point lexicographic comparison of character lists, the order used by
Python string comparison (and hence by `sorted` on file names). -/
def lexLe : List Char → List Char → Bool
  | [], _ => true
  | _ :: _, [] => false
  | a :: as, b :: bs =>
    if a.toNat < b.toNat then true
    else if b.toNat < a.toNat then false
    else lexLe as bs

/-- Lexicographic `≤` on strings (model of Python string comparison). -/
def strLe (a b : String) : Bool := lexLe a.data b.data

theorem lexLe_total : ∀ l₁ l₂ : List Char, lexLe l₁ l₂ = true ∨ lexLe l₂ l₁ = true := by
  intro l₁
  induction l₁ with
  | nil => intro l₂; left; rfl
  | cons a as ih =>
    intro l₂
    cases l₂ with
    | nil => right; rfl
    | cons b bs =>
      by_cases hab : a.toNat < b.toNat
      · left; simp [lexLe, hab]
      · by_cases hba : b.toNat < a.toNat
        · right; simp [lexLe, hba]
        · rcases ih bs with h | h
          · left; simp [lexLe, hab, hba, h]
          · right; simp [lexLe, hab, hba, h]

theorem lexLe_trans : ∀ l₁ l₂ l₃ : List Char,
    lexLe l₁ l₂ = true → lexLe l₂ l₃ = true → lexLe l₁ l₃ = true := by
  intro l₁
  induction l₁ with
  | nil => intro l₂ l₃ _ _; rfl
  | cons a as ih =>
    intro l₂ l₃ h12 h23
    cases l₂ with
    | nil => simp [lexLe] at h12
    | cons b bs =>
      cases l₃ with
      | nil => simp [lexLe] at h23
      | cons c cs =>
        simp only [lexLe] at h12 h23 ⊢
        by_cases hab : a.toNat < b.toNat
        · by_cases hbc : b.toNat < c.toNat
          · simp [show a.toNat < c.toNat by omega]
          · by_cases hcb : c.toNat < b.toNat
            · simp [hbc, hcb] at h23
            · simp [show a.toNat < c.toNat by omega]
        · by_cases hba : b.toNat < a.toNat
          · simp [hab, hba] at h12
          · by_cases hbc : b.toNat < c.toNat
            · simp [show a.toNat < c.toNat by omega]
            · by_cases hcb : c.toNat < b.toNat
              · simp [hbc, hcb] at h23
              · have hac : ¬ a.toNat < c.toNat := by omega
                have hca : ¬ c.toNat < a.toNat := by omega
                simp only [hab, hba, if_neg, ite_false] at h12
                simp only [hbc, hcb, if_neg, ite_false] at h23
                simp only [hac, hca, if_neg, ite_false]
                exact ih bs cs h12 h23

/-- The string order as a `Prop`-valued relation, for use with
`List.insertionSort`. -/
def strLeRel (a b : String) : Prop := strLe a b = true

instance : DecidableRel strLeRel := fun a b => inferInstanceAs (Decidable (strLe a b = true))

instance : IsTotal String strLeRel :=
  ⟨fun a b => lexLe_total a.data b.data⟩

instance : IsTrans String strLeRel :=
  ⟨fun a b c => lexLe_trans a.data b.data c.data⟩

/-- Model of Python `sorted` on a list of strings: sort by code-point
lexicographic order (insertion sort; Python's sort is stable, and so is
this one). -/
def sortStrings (l : List String) : List String := List.insertionSort strLeRel l

theorem sortStrings_sorted (l : List String) : (sortStrings l).Pairwise strLeRel :=
  List.sorted_insertionSort strLeRel l

theorem sortStrings_perm (l : List String) : (sortStrings l).Perm l :=
  List.perm_insertionSort strLeRel l

/-- ASCII lower-casing of one character (model of `str.lower` restricted to
the ASCII range, which is all the extension matching in the source needs). -/
def lowerChar (c : Char) : Char :=
  if 65 ≤ c.toNat ∧ c.toNat ≤ 90 then Char.ofNat (c.toNat + 32) else c

/-- Model of Python `str.lower` (ASCII). -/
def lowerStr (s : String) : String := ⟨s.data.map lowerChar⟩

/-- Model of Python `str.endswith`: `suffix` is a suffix of `s`. -/
def endsWithStr (s suffix : String) : Bool :=
  s.data.drop (s.data.length - suffix.data.length) == suffix.data

/-- Model of Python `str.startswith`: `pre` is a prefix of `s`. -/
def startsWithStr (s pre : String) : Bool :=
  s.data.take pre.data.length == pre.data

/-- Model of Python `str.strip`: drop leading and trailing whitespace. -/
def trimStr (s : String) : String :=
  ⟨((s.data.dropWhile Char.isWhitespace).reverse.dropWhile Char.isWhitespace).reverse⟩

/-- Model of `os.path.splitext` on a plain file name: split at the last dot.
Returns `(stem, extension-with-dot)`; a name without a dot has extension
`""`.  (The leading-dot special case of `splitext` does not arise for the
names the trainer feeds it.) -/
def splitExt (s : String) : String × String :=
  let rev := s.data.reverse
  let extRev := rev.takeWhile (fun c => c ≠ '.')
  if extRev.length = rev.length then (s, "")
  else (⟨(rev.drop (extRev.length + 1)).reverse⟩, ⟨'.' :: extRev.reverse⟩)

/-! ## Decimal rendering of naturals (model of Python `str(int)`) -/

/-- One decimal digit character. -/
def digitChar : Nat → Char
  | 0 => '0' | 1 => '1' | 2 => '2' | 3 => '3' | 4 => '4'
  | 5 => '5' | 6 => '6' | 7 => '7' | 8 => '8' | _ => '9'

/-- Fuel-driven decimal rendering; `fuel` bounds the recursion depth. -/
def natStrAux : Nat → Nat → List Char
  | 0, _ => []
  | fuel + 1, n =>
    if n < 10 then [digitChar n]
    else natStrAux fuel (n / 10) ++ [digitChar (n % 10)]

/-- Model of Python `str` on a non-negative integer: standard decimal
rendering. -/
def natStr (n : Nat) : String := ⟨natStrAux (n + 1) n⟩

/-- Decimal parsing, used only to prove `natStr` injective. -/
def parseNat (l : List Char) : Nat :=
  l.foldl (fun a c => a * 10 + (c.toNat - 48)) 0

theorem digitChar_toNat {n : Nat} (h : n < 10) : (digitChar n).toNat = 48 + n := by
  interval_cases n <;> rfl

theorem parseNat_append_digit (l : List Char) (c : Char) :
    parseNat (l ++ [c]) = parseNat l * 10 + (c.toNat - 48) := by
  simp [parseNat, List.foldl_append]

theorem parseNat_natStrAux : ∀ fuel n, n ≤ fuel → parseNat (natStrAux (fuel + 1) n) = n := by
  intro fuel
  induction fuel with
  | zero =>
    intro n hn
    have : n = 0 := Nat.le_zero.mp hn
    subst this
    rfl
  | succ f ih =>
    intro n hn
    by_cases h10 : n < 10
    · have : natStrAux (f + 1 + 1) n = [digitChar n] := by
        simp [natStrAux, h10]
      rw [this]
      have : parseNat [digitChar n] = (digitChar n).toNat - 48 := by
        simp [parseNat]
      rw [this, digitChar_toNat h10]
      omega
    · have heq : natStrAux (f + 1 + 1) n = natStrAux (f + 1) (n / 10) ++ [digitChar (n % 10)] := by
        simp [natStrAux, h10]
      rw [heq, parseNat_append_digit]
      have hdiv : n / 10 ≤ f := by omega
      rw [ih (n / 10) hdiv, digitChar_toNat (Nat.mod_lt n (by omega))]
      omega

theorem parseNat_natStr (n : Nat) : parseNat (natStr n).data = n :=
  parseNat_natStrAux n n le_rfl

theorem natStr_injective : Function.Injective natStr := by
  intro a b h
  have := congrArg (fun s : String => parseNat s.data) h
  simpa [parseNat_natStr] using this

/-- Zero-padded index rendering, model of Python `f"{n:03d}"`. -/
def pad3 (n : Nat) : String :=
  if n < 10 then "00" ++ natStr n
  else if n < 100 then "0" ++ natStr n
  else natStr n

/-- Model of Python `"|".join`. -/
def joinBar : List String → String
  | [] => ""
  | [s] => s
  | s :: rest => s ++ "|" ++ joinBar rest

/-! ## Append-cancellation helpers -/

theorem string_data_inj {s t : String} (h : s.data = t.data) : s = t :=
  congrArg String.mk h

theorem string_mk_inj {l₁ l₂ : List Char} (h : (⟨l₁⟩ : String) = ⟨l₂⟩) : l₁ = l₂ := by
  injection h

/-- If `"|".join` agrees on two caption lists that share a common prefix and a
common suffix, the single differing entry agrees too. -/
theorem joinBar_single_diff : ∀ (p : List String) {x y : String} (s : List String),
    joinBar (p ++ x :: s) = joinBar (p ++ y :: s) → x = y := by
  intro p
  induction p with
  | nil =>
    intro x y s h
    cases s with
    | nil => simpa [joinBar] using h
    | cons b t =>
      simp only [List.nil_append, joinBar] at h
      have hd := congrArg String.data h
      simp only [String.data_append] at hd
      exact string_data_inj (List.append_cancel_right (List.append_cancel_right hd))
  | cons a p' ih =>
    intro x y s h
    cases hpx : p' ++ x :: s with
    | nil => simp at hpx
    | cons l ls =>
      cases hpy : p' ++ y :: s with
      | nil => simp at hpy
      | cons m ms =>
        rw [List.cons_append, hpx, List.cons_append, hpy] at h
        simp only [joinBar] at h
        have hd := congrArg String.data h
        simp only [String.data_append] at hd
        have hj : joinBar (l :: ls) = joinBar (m :: ms) :=
          string_data_inj (List.append_cancel_left hd)
        rw [← hpx, ← hpy] at hj
        exact ih s hj

/-! ## The fingerprint (`_compute_image_hash`, source lines 87–109)

The digest is modelled as the exact byte stream fed to the SHA-256 hasher
(a collision-free idealization: the real function returns the first 16 hex
characters of the SHA-256 of this stream, so equal streams certainly give
equal digests, and distinct streams give distinct digests barring a hash
collision).  Raw image bytes are represented by `Char` values. -/

/-- The `params_str` f-string of source line 106, byte for byte. -/
def hashParams (modelVariant : String) (captions : List String) (trainingSteps : Nat)
    (learningRate : String) (loraRank : Nat) (vramMode outputName : String)
    (numImages : Nat) (ditModel vaeModel textEncoder : String)
    (blocksToSwap : Nat) : String :=
  "musubi_flux_klein|" ++ modelVariant ++ "|" ++ joinBar captions ++ "|"
    ++ natStr trainingSteps ++ "|" ++ learningRate ++ "|" ++ natStr loraRank ++ "|"
    ++ vramMode ++ "|" ++ outputName ++ "|" ++ natStr numImages ++ "|"
    ++ ditModel ++ "|" ++ vaeModel ++ "|" ++ textEncoder ++ "|" ++ natStr blocksToSwap

/-- `_compute_image_hash` with `use_folder_path=False`: the hasher consumes
each sample's raw bytes in input order, then the parameter string.  The
floating-point learning rate is carried as its textual rendering (Python's
`str(float)`, injective on floats). -/
def computeImageHashInline (images : List (List Char)) (captions : List String)
    (trainingSteps : Nat) (learningRate : String) (loraRank : Nat)
    (vramMode outputName modelVariant ditModel vaeModel textEncoder : String)
    (blocksToSwap : Nat) : String :=
  ⟨images.flatten ++ (hashParams modelVariant captions trainingSteps learningRate loraRank
      vramMode outputName images.length ditModel vaeModel textEncoder blocksToSwap).data⟩

/-- `_compute_image_hash` with `use_folder_path=True`: the hasher consumes
each file's path string, then (when the file exists) the textual rendering of
its modification time, then the parameter string. -/
def computeImageHashFolder (fs : String → Bool) (mtimeStr : String → String)
    (images : List String) (captions : List String)
    (trainingSteps : Nat) (learningRate : String) (loraRank : Nat)
    (vramMode outputName modelVariant ditModel vaeModel textEncoder : String)
    (blocksToSwap : Nat) : String :=
  ⟨(images.map (fun p => p.data ++ (if fs p then (mtimeStr p).data else []))).flatten
    ++ (hashParams modelVariant captions trainingSteps learningRate loraRank
      vramMode outputName images.length ditModel vaeModel textEncoder blocksToSwap).data⟩

/-! ### Per-field cancellation lemmas for the parameter string

If two parameter strings agree and all fields but one agree, the remaining
field's serialization agrees too: the surrounding fields form common prefixes
and suffixes of the byte string, which cancel. -/

theorem hashParams_variant {v₁ v₂ : String} {c : List String} {s : Nat} {lr : String}
    {r : Nat} {m o : String} {n : Nat} {d va te : String} {b : Nat}
    (h : hashParams v₁ c s lr r m o n d va te b = hashParams v₂ c s lr r m o n d va te b) :
    v₁ = v₂ := by
  have hd := congrArg String.data h
  simp only [hashParams, String.data_append, List.append_assoc] at hd
  iterate 1 replace hd := List.append_cancel_left hd
  exact string_data_inj (List.append_cancel_right hd)

theorem hashParams_captions {v : String} {c₁ c₂ : List String} {s : Nat} {lr : String}
    {r : Nat} {m o : String} {n : Nat} {d va te : String} {b : Nat}
    (h : hashParams v c₁ s lr r m o n d va te b = hashParams v c₂ s lr r m o n d va te b) :
    joinBar c₁ = joinBar c₂ := by
  have hd := congrArg String.data h
  simp only [hashParams, String.data_append, List.append_assoc] at hd
  iterate 3 replace hd := List.append_cancel_left hd
  exact string_data_inj (List.append_cancel_right hd)

theorem hashParams_steps {v : String} {c : List String} {s₁ s₂ : Nat} {lr : String}
    {r : Nat} {m o : String} {n : Nat} {d va te : String} {b : Nat}
    (h : hashParams v c s₁ lr r m o n d va te b = hashParams v c s₂ lr r m o n d va te b) :
    s₁ = s₂ := by
  have hd := congrArg String.data h
  simp only [hashParams, String.data_append, List.append_assoc] at hd
  iterate 5 replace hd := List.append_cancel_left hd
  exact natStr_injective (string_data_inj (List.append_cancel_right hd))

theorem hashParams_lr {v : String} {c : List String} {s : Nat} {lr₁ lr₂ : String}
    {r : Nat} {m o : String} {n : Nat} {d va te : String} {b : Nat}
    (h : hashParams v c s lr₁ r m o n d va te b = hashParams v c s lr₂ r m o n d va te b) :
    lr₁ = lr₂ := by
  have hd := congrArg String.data h
  simp only [hashParams, String.data_append, List.append_assoc] at hd
  iterate 7 replace hd := List.append_cancel_left hd
  exact string_data_inj (List.append_cancel_right hd)

theorem hashParams_rank {v : String} {c : List String} {s : Nat} {lr : String}
    {r₁ r₂ : Nat} {m o : String} {n : Nat} {d va te : String} {b : Nat}
    (h : hashParams v c s lr r₁ m o n d va te b = hashParams v c s lr r₂ m o n d va te b) :
    r₁ = r₂ := by
  have hd := congrArg String.data h
  simp only [hashParams, String.data_append, List.append_assoc] at hd
  iterate 9 replace hd := List.append_cancel_left hd
  exact natStr_injective (string_data_inj (List.append_cancel_right hd))

theorem hashParams_vram {v : String} {c : List String} {s : Nat} {lr : String}
    {r : Nat} {m₁ m₂ o : String} {n : Nat} {d va te : String} {b : Nat}
    (h : hashParams v c s lr r m₁ o n d va te b = hashParams v c s lr r m₂ o n d va te b) :
    m₁ = m₂ := by
  have hd := congrArg String.data h
  simp only [hashParams, String.data_append, List.append_assoc] at hd
  iterate 11 replace hd := List.append_cancel_left hd
  exact string_data_inj (List.append_cancel_right hd)

theorem hashParams_outName {v : String} {c : List String} {s : Nat} {lr : String}
    {r : Nat} {m o₁ o₂ : String} {n : Nat} {d va te : String} {b : Nat}
    (h : hashParams v c s lr r m o₁ n d va te b = hashParams v c s lr r m o₂ n d va te b) :
    o₁ = o₂ := by
  have hd := congrArg String.data h
  simp only [hashParams, String.data_append, List.append_assoc] at hd
  iterate 13 replace hd := List.append_cancel_left hd
  exact string_data_inj (List.append_cancel_right hd)

theorem hashParams_dit {v : String} {c : List String} {s : Nat} {lr : String}
    {r : Nat} {m o : String} {n : Nat} {d₁ d₂ va te : String} {b : Nat}
    (h : hashParams v c s lr r m o n d₁ va te b = hashParams v c s lr r m o n d₂ va te b) :
    d₁ = d₂ := by
  have hd := congrArg String.data h
  simp only [hashParams, String.data_append, List.append_assoc] at hd
  iterate 17 replace hd := List.append_cancel_left hd
  exact string_data_inj (List.append_cancel_right hd)

theorem hashParams_vae {v : String} {c : List String} {s : Nat} {lr : String}
    {r : Nat} {m o : String} {n : Nat} {d va₁ va₂ te : String} {b : Nat}
    (h : hashParams v c s lr r m o n d va₁ te b = hashParams v c s lr r m o n d va₂ te b) :
    va₁ = va₂ := by
  have hd := congrArg String.data h
  simp only [hashParams, String.data_append, List.append_assoc] at hd
  iterate 19 replace hd := List.append_cancel_left hd
  exact string_data_inj (List.append_cancel_right hd)

theorem hashParams_te {v : String} {c : List String} {s : Nat} {lr : String}
    {r : Nat} {m o : String} {n : Nat} {d va te₁ te₂ : String} {b : Nat}
    (h : hashParams v c s lr r m o n d va te₁ b = hashParams v c s lr r m o n d va te₂ b) :
    te₁ = te₂ := by
  have hd := congrArg String.data h
  simp only [hashParams, String.data_append, List.append_assoc] at hd
  iterate 21 replace hd := List.append_cancel_left hd
  exact string_data_inj (List.append_cancel_right hd)

theorem hashParams_blocks {v : String} {c : List String} {s : Nat} {lr : String}
    {r : Nat} {m o : String} {n : Nat} {d va te : String} {b₁ b₂ : Nat}
    (h : hashParams v c s lr r m o n d va te b₁ = hashParams v c s lr r m o n d va te b₂) :
    b₁ = b₂ := by
  have hd := congrArg String.data h
  simp only [hashParams, String.data_append, List.append_assoc] at hd
  iterate 23 replace hd := List.append_cancel_left hd
  exact natStr_injective (string_data_inj hd)

/-- C1. Fingerprint determinism: `_compute_image_hash` is a pure function of
its inputs — two computations over identical inputs (byte-identical samples
in the same order, same captions, step count, learning rate, rank, preset
label, variant identifier, output base name, model identities and swap
budget) yield the identical digest. -/
theorem fingerprint_deterministic
    (images₁ images₂ : List (List Char)) (captions₁ captions₂ : List String)
    (steps₁ steps₂ : Nat) (lr₁ lr₂ : String) (rank₁ rank₂ : Nat)
    (mode₁ mode₂ out₁ out₂ variant₁ variant₂ dit₁ dit₂ vae₁ vae₂ te₁ te₂ : String)
    (blocks₁ blocks₂ : Nat)
    (hImages : images₁ = images₂) (hCaptions : captions₁ = captions₂)
    (hSteps : steps₁ = steps₂) (hLr : lr₁ = lr₂) (hRank : rank₁ = rank₂)
    (hMode : mode₁ = mode₂) (hOut : out₁ = out₂) (hVariant : variant₁ = variant₂)
    (hDit : dit₁ = dit₂) (hVae : vae₁ = vae₂) (hTe : te₁ = te₂)
    (hBlocks : blocks₁ = blocks₂) :
    computeImageHashInline images₁ captions₁ steps₁ lr₁ rank₁ mode₁ out₁ variant₁
        dit₁ vae₁ te₁ blocks₁
      = computeImageHashInline images₂ captions₂ steps₂ lr₂ rank₂ mode₂ out₂ variant₂
        dit₂ vae₂ te₂ blocks₂ := by
  subst hImages hCaptions hSteps hLr hRank hMode hOut hVariant hDit hVae hTe hBlocks
  rfl

/-- Witness for C1 at a concrete request. -/
theorem fingerprint_deterministic_witness :
    computeImageHashInline [['a', 'b']] ["photo of subject"] 400 "0.0001" 32
        "Low (768px)" "MyLora" "Klein Base 4B" "dit.safetensors" "ae.safetensors"
        "qwen_3_4b.safetensors" 0
      = computeImageHashInline [['a', 'b']] ["photo of subject"] 400 "0.0001" 32
        "Low (768px)" "MyLora" "Klein Base 4B" "dit.safetensors" "ae.safetensors"
        "qwen_3_4b.safetensors" 0 :=
  fingerprint_deterministic _ _ _ _ _ _ _ _ _ _ _ _ _ _ _ _ _ _ _ _ _ _ _ _
    rfl rfl rfl rfl rfl rfl rfl rfl rfl rfl rfl rfl

/-- C2, counterexample.  Swapping the order of two distinct samples does NOT
always change the fingerprint: with sample bytes `x = "ab"` and `y = "abab"`
and equal captions, the concatenated byte stream fed to the hasher is
identical in both orders, so `_compute_image_hash` returns the identical
digest for the two differently-ordered requests. -/
theorem fingerprint_sample_swap_collision :
    computeImageHashInline [['a', 'b'], ['a', 'b', 'a', 'b']] ["c", "c"] 400 "0.0001" 32
        "Low (768px)" "MyLora" "Klein Base 4B" "dit.safetensors" "ae.safetensors"
        "qwen_3_4b.safetensors" 0
      = computeImageHashInline [['a', 'b', 'a', 'b'], ['a', 'b']] ["c", "c"] 400 "0.0001" 32
        "Low (768px)" "MyLora" "Klein Base 4B" "dit.safetensors" "ae.safetensors"
        "qwen_3_4b.safetensors" 0
    ∧ ([['a', 'b'], ['a', 'b', 'a', 'b']] : List (List Char))
        ≠ [['a', 'b', 'a', 'b'], ['a', 'b']] := by
  constructor
  · rfl
  · decide

/-- C2, amended.  Sensitivity of the fingerprint to a change in exactly one
contributing field, at the level of the byte stream fed to SHA-256 (so the
digests differ barring a hash collision): changing one caption, the step
count, the learning-rate rendering, the LoRA rank, the preset label, the
output base name, the variant identifier, or one of the three model
identities always changes the stream; changing the swap budget changes the
stream when the values differ as hashed, i.e. after the pre-hash clamp to the
variant ceiling (source line 343 runs before line 458); and swapping two
samples (with their captions) changes the stream only when the concatenated
sample bytes or the joined captions actually differ — the counterexample
shows the unconditional claim false. -/
theorem fingerprint_sensitivity_amended
    (images : List (List Char)) (captions : List String) (steps : Nat) (lr : String)
    (rank : Nat) (mode out variant dit vae te : String) (blocks : Nat) :
    (∀ (p s : List String) (x y : String), x ≠ y →
      computeImageHashInline images (p ++ x :: s) steps lr rank mode out variant dit vae te blocks
        ≠ computeImageHashInline images (p ++ y :: s) steps lr rank mode out variant dit vae te blocks)
    ∧ (∀ steps', steps ≠ steps' →
      computeImageHashInline images captions steps lr rank mode out variant dit vae te blocks
        ≠ computeImageHashInline images captions steps' lr rank mode out variant dit vae te blocks)
    ∧ (∀ lr', lr ≠ lr' →
      computeImageHashInline images captions steps lr rank mode out variant dit vae te blocks
        ≠ computeImageHashInline images captions steps lr' rank mode out variant dit vae te blocks)
    ∧ (∀ rank', rank ≠ rank' →
      computeImageHashInline images captions steps lr rank mode out variant dit vae te blocks
        ≠ computeImageHashInline images captions steps lr rank' mode out variant dit vae te blocks)
    ∧ (∀ mode', mode ≠ mode' →
      computeImageHashInline images captions steps lr rank mode out variant dit vae te blocks
        ≠ computeImageHashInline images captions steps lr rank mode' out variant dit vae te blocks)
    ∧ (∀ out', out ≠ out' →
      computeImageHashInline images captions steps lr rank mode out variant dit vae te blocks
        ≠ computeImageHashInline images captions steps lr rank mode out' variant dit vae te blocks)
    ∧ (∀ variant', variant ≠ variant' →
      computeImageHashInline images captions steps lr rank mode out variant dit vae te blocks
        ≠ computeImageHashInline images captions steps lr rank mode out variant' dit vae te blocks)
    ∧ (∀ dit', dit ≠ dit' →
      computeImageHashInline images captions steps lr rank mode out variant dit vae te blocks
        ≠ computeImageHashInline images captions steps lr rank mode out variant dit' vae te blocks)
    ∧ (∀ vae', vae ≠ vae' →
      computeImageHashInline images captions steps lr rank mode out variant dit vae te blocks
        ≠ computeImageHashInline images captions steps lr rank mode out variant dit vae' te blocks)
    ∧ (∀ te', te ≠ te' →
      computeImageHashInline images captions steps lr rank mode out variant dit vae te blocks
        ≠ computeImageHashInline images captions steps lr rank mode out variant dit vae te' blocks)
    ∧ (∀ blocks', blocks ≠ blocks' →
      computeImageHashInline images captions steps lr rank mode out variant dit vae te blocks
        ≠ computeImageHashInline images captions steps lr rank mode out variant dit vae te blocks')
    ∧ (∀ (A B C : List (List Char)) (x y : List Char) (ca cb cc : List String) (cx cy : String),
      (A ++ x :: B ++ y :: C).flatten ≠ (A ++ y :: B ++ x :: C).flatten
        ∨ joinBar (ca ++ cx :: cb ++ cy :: cc) ≠ joinBar (ca ++ cy :: cb ++ cx :: cc) →
      computeImageHashInline (A ++ x :: B ++ y :: C) (ca ++ cx :: cb ++ cy :: cc)
          steps lr rank mode out variant dit vae te blocks
        ≠ computeImageHashInline (A ++ y :: B ++ x :: C) (ca ++ cy :: cb ++ cx :: cc)
          steps lr rank mode out variant dit vae te blocks) := by
  refine ⟨?_, ?_, ?_, ?_, ?_, ?_, ?_, ?_, ?_, ?_, ?_, ?_⟩
  · intro p s x y hne heq
    simp only [computeImageHashInline, List.length_append, List.length_cons] at heq
    exact hne (joinBar_single_diff p s
      (hashParams_captions (string_data_inj (List.append_cancel_left (string_mk_inj heq)))))
  · intro steps' hne heq
    simp only [computeImageHashInline] at heq
    exact hne (hashParams_steps (string_data_inj (List.append_cancel_left (string_mk_inj heq))))
  · intro lr' hne heq
    simp only [computeImageHashInline] at heq
    exact hne (hashParams_lr (string_data_inj (List.append_cancel_left (string_mk_inj heq))))
  · intro rank' hne heq
    simp only [computeImageHashInline] at heq
    exact hne (hashParams_rank (string_data_inj (List.append_cancel_left (string_mk_inj heq))))
  · intro mode' hne heq
    simp only [computeImageHashInline] at heq
    exact hne (hashParams_vram (string_data_inj (List.append_cancel_left (string_mk_inj heq))))
  · intro out' hne heq
    simp only [computeImageHashInline] at heq
    exact hne (hashParams_outName (string_data_inj (List.append_cancel_left (string_mk_inj heq))))
  · intro variant' hne heq
    simp only [computeImageHashInline] at heq
    exact hne (hashParams_variant (string_data_inj (List.append_cancel_left (string_mk_inj heq))))
  · intro dit' hne heq
    simp only [computeImageHashInline] at heq
    exact hne (hashParams_dit (string_data_inj (List.append_cancel_left (string_mk_inj heq))))
  · intro vae' hne heq
    simp only [computeImageHashInline] at heq
    exact hne (hashParams_vae (string_data_inj (List.append_cancel_left (string_mk_inj heq))))
  · intro te' hne heq
    simp only [computeImageHashInline] at heq
    exact hne (hashParams_te (string_data_inj (List.append_cancel_left (string_mk_inj heq))))
  · intro blocks' hne heq
    simp only [computeImageHashInline] at heq
    exact hne (hashParams_blocks (string_data_inj (List.append_cancel_left (string_mk_inj heq))))
  · intro A B C x y ca cb cc cx cy hdisj heq
    simp only [computeImageHashInline, List.length_append, List.length_cons] at heq
    have hlen : (A ++ x :: B ++ y :: C).flatten.length
        = (A ++ y :: B ++ x :: C).flatten.length := by
      simp [List.flatten_append]
      omega
    obtain ⟨hflat, hparams⟩ := List.append_inj (string_mk_inj heq) hlen
    rcases hdisj with hd | hd
    · exact hd hflat
    · exact hd (hashParams_captions (string_data_inj hparams))

/-- Witness for C2's amended sensitivity at a concrete input: changing the
step count from 400 to 500 changes the hasher's input stream. -/
theorem fingerprint_sensitivity_amended_witness :
    (400 : Nat) ≠ 500
    ∧ computeImageHashInline [['a', 'b']] ["c"] 400 "0.0001" 32
        "Low (768px)" "MyLora" "Klein Base 4B" "d" "v" "t" 0
      ≠ computeImageHashInline [['a', 'b']] ["c"] 500 "0.0001" 32
        "Low (768px)" "MyLora" "Klein Base 4B" "d" "v" "t" 0 :=
  ⟨by decide,
    (fingerprint_sensitivity_amended [['a', 'b']] ["c"] 400 "0.0001" 32
      "Low (768px)" "MyLora" "Klein Base 4B" "d" "v" "t" 0).2.1 500 (by decide)⟩

/-! ## Data model of the orchestrator -/

/-- Modelled from the spec: the per-variant dialect table
(`FLUX_KLEIN_VARIANTS` in `musubi_flux_klein_config_template.py`, which is
not among the provided sources).  The spec's VariantDialect carries the
internal version token and the maximum swappable-block count; the node's own
docstring and tooltips fix the values: version tokens `klein-base-4b` /
`klein-base-9b`, ceilings 13 for 4B and 16 for 9B.  Lookup falls back to the
`"Klein Base 4B"` entry for unknown keys, as the source's `.get` does. -/
def FLUX_KLEIN_VARIANTS (variant : String) : String × Nat :=
  if variant = "Klein Base 9B" then ("klein-base-9b", 16) else ("klein-base-4b", 13)

/-- One resource preset of `MUSUBI_FLUX_KLEIN_VRAM_PRESETS` (the concrete
table lives in the absent config-template module; every theorem below is
proved for an arbitrary preset table, so no concrete values are assumed). -/
structure Preset where
  optimizer : String
  mixedPrecision : String
  batchSize : Nat
  gradientCheckpointing : Bool
  fp8Scaled : Bool
  fp8TextEncoder : Bool
  blocksToSwap : Nat
  resolution : Nat

/-- The caller-supplied training request: the node inputs of
`train_flux_klein_lora` (source lines 314–334).  Inline samples arrive as an
ordered list of (raw image bytes, raw caption) pairs — the collected
`image_i`/`caption_i` slots, where an empty raw caption means "absent, use
the default".  The learning rate is carried as its textual rendering. -/
structure Request where
  modelVariant : String
  imagesPath : String
  musubiPath : String
  ditModel : String
  vaeModel : String
  textEncoder : String
  caption : String
  trainingSteps : Nat
  learningRate : String
  loraRank : Nat
  blocksToSwap : Nat
  vramMode : String
  keepLora : Bool
  outputName : String
  customPythonExe : String
  inline : List (List Char × String)

/-- The explicit world a run executes against: filesystem views, external
path resolution (`folder_paths`, an external collaborator per the spec), the
exit codes the three child processes will return, and the values the
environment supplies (timestamp, fresh temp directory).  `fsAfterTrain` and
`listOutAfterTrain` are the filesystem views after the external training
process has run (it creates the artifact). -/
structure World where
  fs : String → Bool
  readFile : String → String
  isDir : String → Bool
  listDir : String → List String
  mtimeStr : String → String
  resolvePath : String → String → String
  exitLatents : Int
  exitTE : Int
  exitTrain : Int
  timestamp : String
  tempDir : String
  fsAfterTrain : String → Bool
  listOutAfterTrain : List String

/-- Observable side effects of one run, in order: config-store rewrite
(line 454), cache-store rewrite (`_save_musubi_cache`), temp-workspace
creation/removal, and one entry per child-process stage actually spawned,
carrying its exit code. -/
inductive Event where
  | saveConfig : Event
  | saveCache : Event
  | mkTemp : Event
  | rmTemp : Event
  | stage : String → Int → Event
deriving DecidableEq, Repr

/-- The errors `train_flux_klein_lora` raises: `ValueError` for no samples,
`FileNotFoundError` with a message, `RuntimeError` for a failed stage (with
the stage identity and exit code), `FileNotFoundError` for a missing
artifact. -/
inductive RunError where
  | noImages : RunError
  | notFound : String → RunError
  | stageFailed : String → Int → RunError
  | noLora : String → RunError
deriving DecidableEq, Repr

instance : DecidableEq (Except RunError String) := fun x y =>
  match x, y with
  | .ok a, .ok b => if h : a = b then isTrue (by rw [h]) else isFalse (by simp [h])
  | .error a, .error b => if h : a = b then isTrue (by rw [h]) else isFalse (by simp [h])
  | .ok _, .error _ => isFalse (by simp)
  | .error _, .ok _ => isFalse (by simp)

/-- Result of a run: the returned LoRA path or the raised error, the ordered
event trace, and the cache mapping after the run. -/
structure RunOutcome where
  result : Except RunError String
  trace : List Event
  cache : List (String × String)
deriving DecidableEq, Repr

/-! ### The persisted LoRA cache (a Python dict fingerprint → path) -/

def cacheLookup : List (String × String) → String → Option String
  | [], _ => none
  | (k', v) :: rest, k => if k' = k then some v else cacheLookup rest k

def cacheErase (c : List (String × String)) (k : String) : List (String × String) :=
  c.filter (fun p => !(p.1 == k))

def cacheInsert (c : List (String × String)) (k v : String) : List (String × String) :=
  (k, v) :: cacheErase c k

/-! ### Path helpers of the source module -/

/-- `_get_venv_python_path` / `_get_accelerate_path` (source lines 112–151),
POSIX branch: probe `.venv/bin/` then `venv/bin/`, fall back to the
`venv/bin/` path for error messaging. -/
def venvTool (fsq : String → Bool) (musubi tool : String) : String :=
  if fsq (musubi ++ "/.venv/bin/" ++ tool) then musubi ++ "/.venv/bin/" ++ tool
  else if fsq (musubi ++ "/venv/bin/" ++ tool) then musubi ++ "/venv/bin/" ++ tool
  else musubi ++ "/venv/bin/" ++ tool

/-- Text-encoder path resolution with `clip`-folder fallback (source
lines 354–356). -/
def teResolvedPath (w : World) (r : Request) : String :=
  let p := w.resolvePath "text_encoders" r.textEncoder
  if p = "" ∨ w.fs p = false then w.resolvePath "clip" r.textEncoder else p

/-! ### Directory-mode sample discovery and staging (source lines 363–388
and 497–506) -/

/-- The recognized raster extensions (source line 367). -/
def imageExtensions : List String := [".png", ".jpg", ".jpeg", ".webp", ".bmp"]

/-- `filename.lower().endswith(image_extensions)`. -/
def isImageFile (name : String) : Bool :=
  imageExtensions.any (fun e => endsWithStr (lowerStr name) e)

/-- The recognized image file names of a directory listing, enumerated in
sorted order (`for filename in sorted(os.listdir(images_path))`). -/
def folderNames (listing : List String) : List String :=
  (sortStrings listing).filter isImageFile

/-- Caption resolution for one directory-sourced image: the same-stem `.txt`
file's stripped contents when it exists, else the request-level default
caption (source lines 374–380). -/
def folderCaptionFor (ex : String → Bool) (read : String → String)
    (dir defaultCap name : String) : String :=
  let capFile := dir ++ "/" ++ (splitExt name).1 ++ ".txt"
  if ex capFile then trimStr (read capFile) else defaultCap

/-- The directory-mode sample discovery of the run: empty when the trimmed
`images_path` is empty or not a directory. -/
def folderNamesOf (w : World) (r : Request) : List String :=
  let ip := trimStr r.imagesPath
  if ip = "" then []
  else if w.isDir ip then folderNames (w.listDir ip)
  else []

def folderImagesOf (w : World) (r : Request) : List String :=
  (folderNamesOf w r).map (fun f => trimStr r.imagesPath ++ "/" ++ f)

def folderCaptionsOf (w : World) (r : Request) : List String :=
  (folderNamesOf w r).map (folderCaptionFor w.fs w.readFile (trimStr r.imagesPath) r.caption)

/-- Staged image file names for directory mode: `image_{idx+1:03d}{ext}`
(source line 501), extension taken from the source path. -/
def stagedImages (paths : List String) : List String :=
  paths.enum.map (fun pr => "image_" ++ pad3 (pr.1 + 1) ++ (splitExt pr.2).2)

/-- Staged label files: `image_{idx+1:03d}.txt`, each containing the
caption resolved for the sample at that index (source lines 504–506). -/
def stagedLabels (captions : List String) : List (String × String) :=
  captions.enum.map (fun pr => ("image_" ++ pad3 (pr.1 + 1) ++ ".txt", pr.2))

/-! ### Swap-budget clamping and the training command (source lines 343–345,
636–683) -/

/-- The pre-hash clamp of the requested swap budget to the variant ceiling
(source lines 343–345). -/
def clampBlocks (requested maxBlocks : Nat) : Nat :=
  if requested > maxBlocks then maxBlocks else requested

/-- The effective swap budget placed into the training command: the
(already clamped) request value when positive, else the preset default,
then capped to the variant ceiling again (source lines 677–681). -/
def effectiveBlocks (blocks presetDefault maxBlocks : Nat) : Nat :=
  let e := if blocks > 0 then blocks else presetDefault
  if e > maxBlocks then maxBlocks else e

/-- End-to-end effective swap budget as a function of the raw request
value. -/
def effectiveBlocksCalc (requested presetDefault maxBlocks : Nat) : Nat :=
  effectiveBlocks (clampBlocks requested maxBlocks) presetDefault maxBlocks

/-- The training-stage argument list (source lines 636–683), byte for byte,
including the conditional memory-optimization flags. -/
def buildTrainCmd (accel trainScript : String) (preset : Preset)
    (ditPath vaePath tePath configPath modelVersion lr : String)
    (rank steps : Nat) (outputFolder runName : String)
    (effBlocks : Nat) : List String :=
  [accel, "launch", "--num_cpu_threads_per_process=1",
    "--mixed_precision=" ++ preset.mixedPrecision,
    trainScript,
    "--dit=" ++ ditPath,
    "--vae=" ++ vaePath,
    "--text_encoder=" ++ tePath,
    "--dataset_config=" ++ configPath,
    "--model_version=" ++ modelVersion,
    "--sdpa",
    "--mixed_precision=" ++ preset.mixedPrecision,
    "--timestep_sampling=flux2_shift",
    "--weighting_scheme=none",
    "--optimizer_type=" ++ preset.optimizer,
    "--learning_rate=" ++ lr,
    "--network_module=networks.lora_flux_2",
    "--network_dim=" ++ natStr rank,
    "--network_alpha=" ++ natStr rank,
    "--max_train_steps=" ++ natStr steps,
    "--max_data_loader_n_workers=2",
    "--persistent_data_loader_workers",
    "--output_dir=" ++ outputFolder,
    "--output_name=" ++ runName,
    "--seed=42"]
  ++ (if preset.gradientCheckpointing then ["--gradient_checkpointing"] else [])
  ++ (if preset.fp8Scaled then ["--fp8_base", "--fp8_scaled"] else [])
  ++ (if preset.fp8TextEncoder then ["--fp8_text_encoder"] else [])
  ++ (if 0 < effBlocks then ["--blocks_to_swap=" ++ natStr effBlocks] else [])

/-! ### Artifact resolution (source lines 717–723) -/

/-- After training succeeds: return the expected path if it exists, else
scan the output directory listing for files starting with the run name and
ending in `.safetensors` and take `possible_files[-1]` — the LAST match in
directory-enumeration order (the listing is NOT sorted here); fail with the
"no LoRA file found" error when there is no candidate. -/
def resolveArtifact (ex : String → Bool) (listing : List String)
    (outputFolder runName expectedPath : String) : Except RunError String :=
  if ex expectedPath then .ok expectedPath
  else
    match (listing.filter
        (fun f => startsWithStr f runName && endsWithStr f ".safetensors")).getLast? with
    | some f => .ok (outputFolder ++ "/" ++ f)
    | none => .error (.noLora ("No LoRA file found in " ++ outputFolder))

/-! ### Fresh-output-name search (source lines 480–489) -/

/-- The artifact path derived from a run name. -/
def outputCandidate (outputFolder nm : String) : String :=
  outputFolder ++ "/" ++ nm ++ ".safetensors"

/-- The `while os.path.exists(...)` counter search, fuel-bounded: the first
counter `k, k+1, …` whose derived path does not exist (returns the current
counter when fuel runs out; every theorem below supplies enough fuel). -/
def findFreeCounter (ex : String → Bool) (outputFolder nm : String) : Nat → Nat → Nat
  | k, 0 => k
  | k, fuel + 1 =>
    if ex (outputCandidate outputFolder (nm ++ "_" ++ natStr k))
    then findFreeCounter ex outputFolder nm (k + 1) fuel
    else k

/-- The auto-increment of source lines 480–489: keep the run name when its
derived path is free, otherwise append `_{counter}` for the counter found by
the `while` loop, starting at 1. -/
def chooseOutputName (ex : String → Bool) (outputFolder nm : String) (fuel : Nat) :
    String × String :=
  if ex (outputCandidate outputFolder nm) then
    let c := findFreeCounter ex outputFolder nm 1 fuel
    let nm2 := nm ++ "_" ++ natStr c
    (nm2, outputCandidate outputFolder nm2)
  else (nm, outputCandidate outputFolder nm)

/-! ### The orchestrator -/

/-- The fingerprint the run computes in inline mode (source line 460): the
collected inline samples, captions with per-sample override falling back to
the default, and the pre-clamped swap budget. -/
def inlineHashOf (r : Request) : String :=
  computeImageHashInline (r.inline.map Prod.fst)
    (r.inline.map (fun pr => if pr.2 = "" then r.caption else pr.2))
    r.trainingSteps r.learningRate r.loraRank r.vramMode r.outputName r.modelVariant
    r.ditModel r.vaeModel r.textEncoder
    (clampBlocks r.blocksToSwap (FLUX_KLEIN_VARIANTS r.modelVariant).2)

/-- The fingerprint the run computes in directory mode (source line 458). -/
def folderHashOf (w : World) (r : Request) : String :=
  computeImageHashFolder w.fs w.mtimeStr (folderImagesOf w r) (folderCaptionsOf w r)
    r.trainingSteps r.learningRate r.loraRank r.vramMode r.outputName r.modelVariant
    r.ditModel r.vaeModel r.textEncoder
    (clampBlocks r.blocksToSwap (FLUX_KLEIN_VARIANTS r.modelVariant).2)

/-- The build part of the run — everything from run-name generation
(source line 472) to the end, i.e. the path taken on a cache miss.  `pre` is
the trace accumulated before the workspace is created; every error raised
inside the `try` block still ends with workspace removal (`finally`,
lines 737–742). -/
def trainBuild (presets : String → Preset) (w : World) (r : Request)
    (imageHash : String) (cache2 : List (String × String)) (pre : List Event) :
    RunOutcome :=
  let musubi := trimStr r.musubiPath
  let variantSuffix := if r.modelVariant = "Klein Base 4B" then "4b" else "9b"
  let runName0 :=
    if r.outputName ≠ "" then r.outputName ++ "_" ++ variantSuffix ++ "_" ++ w.timestamp
    else "flux_klein_" ++ variantSuffix ++ "_lora_" ++ imageHash
  let outputFolder := musubi ++ "/output"
  let chosen := chooseOutputName w.fs outputFolder runName0 ((w.listDir outputFolder).length + 1)
  let body : Except RunError String × List Event × List (String × String) :=
    if trimStr r.customPythonExe ≠ "" ∧ w.fs (trimStr r.customPythonExe) = false then
      (.error (.notFound ("Custom python.exe not found at: " ++ trimStr r.customPythonExe)),
        [], cache2)
    else if w.fs (musubi ++ "/src/musubi_tuner/flux_2_cache_latents.py") = false then
      (.error (.notFound ("flux_2_cache_latents.py not found at: "
          ++ musubi ++ "/src/musubi_tuner/flux_2_cache_latents.py")), [], cache2)
    else if w.exitLatents ≠ 0 then
      (.error (.stageFailed "Latent caching" w.exitLatents),
        [.stage "flux_2_cache_latents" w.exitLatents], cache2)
    else if w.fs (musubi ++ "/src/musubi_tuner/flux_2_cache_text_encoder_outputs.py") = false then
      (.error (.notFound ("flux_2_cache_text_encoder_outputs.py not found at: "
          ++ musubi ++ "/src/musubi_tuner/flux_2_cache_text_encoder_outputs.py")),
        [.stage "flux_2_cache_latents" w.exitLatents], cache2)
    else if w.exitTE ≠ 0 then
      (.error (.stageFailed "Text encoder caching" w.exitTE),
        [.stage "flux_2_cache_latents" w.exitLatents,
          .stage "flux_2_cache_text_encoder_outputs" w.exitTE], cache2)
    else if w.exitTrain ≠ 0 then
      (.error (.stageFailed "Musubi Tuner training" w.exitTrain),
        [.stage "flux_2_cache_latents" w.exitLatents,
          .stage "flux_2_cache_text_encoder_outputs" w.exitTE,
          .stage "flux_2_train_network" w.exitTrain], cache2)
    else
      match resolveArtifact w.fsAfterTrain w.listOutAfterTrain outputFolder chosen.1 chosen.2 with
      | .error e =>
        (.error e,
          [.stage "flux_2_cache_latents" w.exitLatents,
            .stage "flux_2_cache_text_encoder_outputs" w.exitTE,
            .stage "flux_2_train_network" w.exitTrain], cache2)
      | .ok path =>
        if r.keepLora then
          (.ok path,
            [.stage "flux_2_cache_latents" w.exitLatents,
              .stage "flux_2_cache_text_encoder_outputs" w.exitTE,
              .stage "flux_2_train_network" w.exitTrain, .saveCache],
            cacheInsert cache2 imageHash path)
        else
          (.ok path,
            [.stage "flux_2_cache_latents" w.exitLatents,
              .stage "flux_2_cache_text_encoder_outputs" w.exitTE,
              .stage "flux_2_train_network" w.exitTrain], cache2)
  ⟨body.1, pre ++ Event.mkTemp :: body.2.1 ++ [Event.rmTemp], body.2.2⟩

/-- `train_flux_klein_lora` (source lines 314–742) as a pure function of
the request, the world and the incoming cache.  Follows the source order:
variant lookup and swap-budget clamp, path resolution, directory-mode
discovery with inline fallback, the no-samples check, environment
validation, settings save, fingerprint computation, cache lookup with
self-healing, then the build. -/
def trainRun (presets : String → Preset) (w : World) (r : Request)
    (cache : List (String × String)) : RunOutcome :=
  let musubi := trimStr r.musubiPath
  let ditPath := w.resolvePath "diffusion_models" r.ditModel
  let vaePath := w.resolvePath "vae" r.vaeModel
  let tePath := teResolvedPath w r
  let useFolder := !(folderNamesOf w r).isEmpty
  let allImages := r.inline.map Prod.fst
  if useFolder = false ∧ allImages = [] then ⟨.error .noImages, [], cache⟩
  else
    let accel := venvTool w.fs musubi "accelerate"
    let trainScript := musubi ++ "/src/musubi_tuner/flux_2_train_network.py"
    if w.fs accel = false then
      ⟨.error (.notFound ("Musubi Tuner accelerate not found at: " ++ accel)), [], cache⟩
    else if w.fs trainScript = false then
      ⟨.error (.notFound ("flux_2_train_network.py not found at: " ++ trainScript)), [], cache⟩
    else if ditPath = "" ∨ w.fs ditPath = false then
      ⟨.error (.notFound ("DiT model not found at: " ++ ditPath)), [], cache⟩
    else if vaePath = "" ∨ w.fs vaePath = false then
      ⟨.error (.notFound ("VAE model not found at: " ++ vaePath)), [], cache⟩
    else if tePath = "" ∨ w.fs tePath = false then
      ⟨.error (.notFound ("Text encoder not found at: " ++ tePath)), [], cache⟩
    else
      let imageHash := if useFolder then folderHashOf w r else inlineHashOf r
      if r.keepLora then
        match cacheLookup cache imageHash with
        | some cachedPath =>
          if w.fs cachedPath then ⟨.ok cachedPath, [.saveConfig], cache⟩
          else
            trainBuild presets w r imageHash (cacheErase cache imageHash)
              [.saveConfig, .saveCache]
        | none => trainBuild presets w r imageHash cache [.saveConfig]
      else trainBuild presets w r imageHash cache [.saveConfig]

/-! ## Claim theorems about the orchestrator -/

/-- C8.  No-samples failure: when sample resolution yields nothing — the
directory source resolves to no recognized image files (which covers an
empty/invalid path, a non-directory, and a directory with no recognized
images) and no inline image is connected — the run fails with the
no-samples error, with an empty trace: no workspace is created and no child
process is spawned. -/
theorem no_samples_failfast (presets : String → Preset) (w : World) (r : Request)
    (cache : List (String × String))
    (hFolder : folderNamesOf w r = []) (hInline : r.inline = []) :
    trainRun presets w r cache = ⟨.error .noImages, [], cache⟩ := by
  simp [trainRun, hFolder, hInline]

/-- Preset fixture for witnesses (the concrete preset values never matter:
every theorem holds for an arbitrary preset table). -/
def presetLow : Preset :=
  { optimizer := "adamw8bit", mixedPrecision := "bf16", batchSize := 1,
    gradientCheckpointing := true, fp8Scaled := true, fp8TextEncoder := true,
    blocksToSwap := 14, resolution := 768 }

def presetsFix : String → Preset := fun _ => presetLow

/-- Request fixture: directory mode pointing at a directory with no
recognized image files, and nothing connected inline. -/
def reqEmpty : Request :=
  { modelVariant := "Klein Base 4B", imagesPath := "/data/imgs", musubiPath := "/m",
    ditModel := "dit", vaeModel := "vae", textEncoder := "te", caption := "photo",
    trainingSteps := 400, learningRate := "0.0001", loraRank := 32, blocksToSwap := 0,
    vramMode := "Low (768px)", keepLora := true, outputName := "MyLora",
    customPythonExe := "", inline := [] }

/-- World fixture for the no-samples witness: the images directory exists
but holds only a text file. -/
def worldEmpty : World :=
  { fs := fun _ => false, readFile := fun _ => "", isDir := fun d => d = "/data/imgs",
    listDir := fun _ => ["notes.txt"], mtimeStr := fun _ => "0",
    resolvePath := fun _ n => "/models/" ++ n,
    exitLatents := 0, exitTE := 0, exitTrain := 0, timestamp := "T",
    tempDir := "/tmp/w", fsAfterTrain := fun _ => false, listOutAfterTrain := [] }

/-- Witness for C8: a directory containing no recognized image file and no
inline samples fails with the no-samples error and an empty trace. -/
theorem no_samples_failfast_witness :
    folderNamesOf worldEmpty reqEmpty = [] ∧ reqEmpty.inline = []
    ∧ trainRun presetsFix worldEmpty reqEmpty [] = ⟨.error .noImages, [], []⟩ :=
  ⟨by decide, rfl,
    no_samples_failfast presetsFix worldEmpty reqEmpty [] (by decide) rfl⟩

/-- C3, amended.  At-most-one-build-per-fingerprint, for a request with
`keep_lora` enabled: when the computed fingerprint is in the cache and the
stored artifact path still exists, the run returns that path immediately —
the trace holds only the settings save, so no workspace is created and no
pipeline stage is invoked, and the cache is unchanged.  (The hypotheses up
to `hTe2` say the run reaches the cache check: samples resolve and the
environment validations pass.) -/
theorem cache_hit_short_circuit (presets : String → Preset) (w : World) (r : Request)
    (cache : List (String × String)) (p : String)
    (hKeep : r.keepLora = true)
    (hFolder : folderNamesOf w r = [])
    (hInline : r.inline ≠ [])
    (hAccel : w.fs (venvTool w.fs (trimStr r.musubiPath) "accelerate") = true)
    (hScript : w.fs (trimStr r.musubiPath ++ "/src/musubi_tuner/flux_2_train_network.py") = true)
    (hDit1 : w.resolvePath "diffusion_models" r.ditModel ≠ "")
    (hDit2 : w.fs (w.resolvePath "diffusion_models" r.ditModel) = true)
    (hVae1 : w.resolvePath "vae" r.vaeModel ≠ "")
    (hVae2 : w.fs (w.resolvePath "vae" r.vaeModel) = true)
    (hTe1 : teResolvedPath w r ≠ "")
    (hTe2 : w.fs (teResolvedPath w r) = true)
    (hHit : cacheLookup cache (inlineHashOf r) = some p)
    (hExists : w.fs p = true) :
    trainRun presets w r cache = ⟨.ok p, [.saveConfig], cache⟩ := by
  simp [trainRun, hKeep, hFolder, hInline, hAccel, hScript, hDit1, hDit2, hVae1, hVae2,
    hTe1, hTe2, hHit, hExists, List.map_eq_nil_iff]

/-- Request fixture for the cache-hit theorems: inline mode with one
sample, `keep_lora` enabled. -/
def reqHit : Request :=
  { modelVariant := "Klein Base 4B", imagesPath := "", musubiPath := "/m",
    ditModel := "dit", vaeModel := "vae", textEncoder := "te", caption := "photo",
    trainingSteps := 400, learningRate := "0.0001", loraRank := 32, blocksToSwap := 0,
    vramMode := "Low (768px)", keepLora := true, outputName := "MyLora",
    customPythonExe := "", inline := [(['a', 'b'], "")] }

/-- World fixture for the cache-hit witness: all validated paths and the
cached artifact exist. -/
def worldHit : World :=
  { fs := fun s => s ∈ ["/m/.venv/bin/accelerate",
      "/m/src/musubi_tuner/flux_2_train_network.py",
      "/models/dit", "/models/vae", "/models/te", "/cached.safetensors"],
    readFile := fun _ => "", isDir := fun _ => false,
    listDir := fun _ => [], mtimeStr := fun _ => "0",
    resolvePath := fun _ n => "/models/" ++ n,
    exitLatents := 0, exitTE := 0, exitTrain := 0, timestamp := "T",
    tempDir := "/tmp/w", fsAfterTrain := fun _ => false, listOutAfterTrain := [] }

/-- Witness for C3's amended theorem: a concrete hit returns the cached path
with only the settings save in the trace. -/
theorem cache_hit_short_circuit_witness :
    cacheLookup [(inlineHashOf reqHit, "/cached.safetensors")] (inlineHashOf reqHit)
        = some "/cached.safetensors"
    ∧ worldHit.fs "/cached.safetensors" = true
    ∧ trainRun presetsFix worldHit reqHit [(inlineHashOf reqHit, "/cached.safetensors")]
        = ⟨.ok "/cached.safetensors", [.saveConfig],
            [(inlineHashOf reqHit, "/cached.safetensors")]⟩ :=
  ⟨by decide, by decide,
    cache_hit_short_circuit presetsFix worldHit reqHit
      [(inlineHashOf reqHit, "/cached.safetensors")] "/cached.safetensors"
      rfl (by decide) (by decide) (by decide) (by decide) (by decide) (by decide)
      (by decide) (by decide) (by decide) (by decide) (by decide) (by decide)⟩

/-- Request fixture for the C3 counterexample: identical to `reqHit` except
that `keep_lora` is disabled. -/
def reqNoKeep : Request :=
  { modelVariant := "Klein Base 4B", imagesPath := "", musubiPath := "/m",
    ditModel := "dit", vaeModel := "vae", textEncoder := "te", caption := "photo",
    trainingSteps := 400, learningRate := "0.0001", loraRank := 32, blocksToSwap := 0,
    vramMode := "Low (768px)", keepLora := false, outputName := "MyLora",
    customPythonExe := "", inline := [(['a', 'b'], "")] }

/-- World fixture for the C3 counterexample: every validated path, both
pre-cache scripts and the cached artifact exist; all three stages would
succeed, and training produces the expected artifact. -/
def worldNoKeep : World :=
  { fs := fun s => s ∈ ["/m/.venv/bin/accelerate",
      "/m/src/musubi_tuner/flux_2_train_network.py",
      "/m/src/musubi_tuner/flux_2_cache_latents.py",
      "/m/src/musubi_tuner/flux_2_cache_text_encoder_outputs.py",
      "/models/dit", "/models/vae", "/models/te", "/cached.safetensors"],
    readFile := fun _ => "", isDir := fun _ => false,
    listDir := fun _ => [], mtimeStr := fun _ => "0",
    resolvePath := fun _ n => "/models/" ++ n,
    exitLatents := 0, exitTE := 0, exitTrain := 0, timestamp := "T",
    tempDir := "/tmp/w",
    fsAfterTrain := fun s => s = "/m/output/MyLora_4b_T.safetensors",
    listOutAfterTrain := [] }

/-- C3, counterexample.  The claim quantifies over every request whose
fingerprint is cached with a still-existing artifact, but the cache check is
gated on `keep_lora` (source line 463): with `keep_lora = False`, a request
whose fingerprint IS in the cache and whose stored path DOES exist is rebuilt
— the run does not return the cached path, creates a workspace and invokes
all three pipeline stages. -/
theorem cache_hit_bypass_counterexample :
    cacheLookup [(inlineHashOf reqNoKeep, "/cached.safetensors")] (inlineHashOf reqNoKeep)
        = some "/cached.safetensors"
    ∧ worldNoKeep.fs "/cached.safetensors" = true
    ∧ (trainRun presetsFix worldNoKeep reqNoKeep
        [(inlineHashOf reqNoKeep, "/cached.safetensors")]).result ≠ .ok "/cached.safetensors"
    ∧ Event.mkTemp ∈ (trainRun presetsFix worldNoKeep reqNoKeep
        [(inlineHashOf reqNoKeep, "/cached.safetensors")]).trace
    ∧ Event.stage "flux_2_train_network" 0 ∈ (trainRun presetsFix worldNoKeep reqNoKeep
        [(inlineHashOf reqNoKeep, "/cached.safetensors")]).trace := by
  refine ⟨by decide, by decide, by decide, by decide, by decide⟩

/-- C4.  Cache self-healing: when the lookup hits (`keep_lora` enabled,
fingerprint present) but the stored artifact path no longer exists, the
entry is deleted and the persisted cache store is rewritten (the `saveCache`
event) before the run proceeds as a miss: the trace continues with workspace
creation and all three pipeline stages, and the final cache is the healed
mapping with the new artifact recorded.  Hypotheses `hVar`–`hArt` pin the
rest of a successful build (existing scripts, zero exit codes, artifact at
the expected path). -/
theorem cache_self_healing (presets : String → Preset) (w : World) (r : Request)
    (cache : List (String × String)) (p : String)
    (hKeep : r.keepLora = true)
    (hFolder : folderNamesOf w r = [])
    (hInline : r.inline ≠ [])
    (hAccel : w.fs (venvTool w.fs (trimStr r.musubiPath) "accelerate") = true)
    (hScript : w.fs (trimStr r.musubiPath ++ "/src/musubi_tuner/flux_2_train_network.py") = true)
    (hDit1 : w.resolvePath "diffusion_models" r.ditModel ≠ "")
    (hDit2 : w.fs (w.resolvePath "diffusion_models" r.ditModel) = true)
    (hVae1 : w.resolvePath "vae" r.vaeModel ≠ "")
    (hVae2 : w.fs (w.resolvePath "vae" r.vaeModel) = true)
    (hTe1 : teResolvedPath w r ≠ "")
    (hTe2 : w.fs (teResolvedPath w r) = true)
    (hHit : cacheLookup cache (inlineHashOf r) = some p)
    (hGone : w.fs p = false)
    (hVar : r.modelVariant = "Klein Base 4B")
    (hOut : r.outputName ≠ "")
    (hFree : w.fs (outputCandidate (trimStr r.musubiPath ++ "/output")
        (r.outputName ++ "_" ++ "4b" ++ "_" ++ w.timestamp)) = false)
    (hPy : trimStr r.customPythonExe = "")
    (hCl : w.fs (trimStr r.musubiPath ++ "/src/musubi_tuner/flux_2_cache_latents.py") = true)
    (hTeScript : w.fs (trimStr r.musubiPath
        ++ "/src/musubi_tuner/flux_2_cache_text_encoder_outputs.py") = true)
    (hE1 : w.exitLatents = 0) (hE2 : w.exitTE = 0) (hE3 : w.exitTrain = 0)
    (hArt : w.fsAfterTrain (outputCandidate (trimStr r.musubiPath ++ "/output")
        (r.outputName ++ "_" ++ "4b" ++ "_" ++ w.timestamp)) = true) :
    trainRun presets w r cache =
      ⟨.ok (outputCandidate (trimStr r.musubiPath ++ "/output")
          (r.outputName ++ "_" ++ "4b" ++ "_" ++ w.timestamp)),
        [.saveConfig, .saveCache, .mkTemp,
          .stage "flux_2_cache_latents" 0,
          .stage "flux_2_cache_text_encoder_outputs" 0,
          .stage "flux_2_train_network" 0, .saveCache, .rmTemp],
        cacheInsert (cacheErase cache (inlineHashOf r)) (inlineHashOf r)
          (outputCandidate (trimStr r.musubiPath ++ "/output")
            (r.outputName ++ "_" ++ "4b" ++ "_" ++ w.timestamp))⟩ := by
  simp [trainRun, trainBuild, chooseOutputName, resolveArtifact, hKeep, hFolder, hInline,
    hAccel, hScript, hDit1, hDit2, hVae1, hVae2, hTe1, hTe2, hHit, hGone, hVar, hOut,
    hFree, hPy, hCl, hTeScript, hE1, hE2, hE3, hArt, List.map_eq_nil_iff]

/-- C5.  Fail-fast with teardown: a run that reaches the pipeline (here on
the no-hit path: `keep_lora` disabled or fingerprint not cached) whose
second stage — text-encoder output pre-caching — exits with a non-zero code
`c` fails with the stage identity and exit code, the third (training) stage
never appears in the trace, and the workspace-removal event closes the
trace. -/
theorem te_stage_failfast (presets : String → Preset) (w : World) (r : Request)
    (cache : List (String × String)) (c : Int)
    (hNoHit : r.keepLora = false ∨ cacheLookup cache (inlineHashOf r) = none)
    (hFolder : folderNamesOf w r = [])
    (hInline : r.inline ≠ [])
    (hAccel : w.fs (venvTool w.fs (trimStr r.musubiPath) "accelerate") = true)
    (hScript : w.fs (trimStr r.musubiPath ++ "/src/musubi_tuner/flux_2_train_network.py") = true)
    (hDit1 : w.resolvePath "diffusion_models" r.ditModel ≠ "")
    (hDit2 : w.fs (w.resolvePath "diffusion_models" r.ditModel) = true)
    (hVae1 : w.resolvePath "vae" r.vaeModel ≠ "")
    (hVae2 : w.fs (w.resolvePath "vae" r.vaeModel) = true)
    (hTe1 : teResolvedPath w r ≠ "")
    (hTe2 : w.fs (teResolvedPath w r) = true)
    (hPy : trimStr r.customPythonExe = "")
    (hCl : w.fs (trimStr r.musubiPath ++ "/src/musubi_tuner/flux_2_cache_latents.py") = true)
    (hTeScript : w.fs (trimStr r.musubiPath
        ++ "/src/musubi_tuner/flux_2_cache_text_encoder_outputs.py") = true)
    (hE1 : w.exitLatents = 0) (hE2 : w.exitTE = c) (hc : c ≠ 0) :
    trainRun presets w r cache =
      ⟨.error (.stageFailed "Text encoder caching" c),
        [.saveConfig, .mkTemp,
          .stage "flux_2_cache_latents" 0,
          .stage "flux_2_cache_text_encoder_outputs" c, .rmTemp],
        cache⟩ := by
  rcases hNoHit with hKeep | hMiss
  · simp [trainRun, trainBuild, chooseOutputName, hKeep, hFolder, hInline,
      hAccel, hScript, hDit1, hDit2, hVae1, hVae2, hTe1, hTe2,
      hPy, hCl, hTeScript, hE1, hE2, hc, List.map_eq_nil_iff]
  · simp [trainRun, trainBuild, chooseOutputName, hMiss, hFolder, hInline,
      hAccel, hScript, hDit1, hDit2, hVae1, hVae2, hTe1, hTe2,
      hPy, hCl, hTeScript, hE1, hE2, hc, List.map_eq_nil_iff]

/-- World fixture for the self-healing witness: everything the build needs
exists, the previously cached artifact `/gone.safetensors` does not, and the
training stage produces the expected artifact. -/
def worldHeal : World :=
  { fs := fun s => s ∈ ["/m/.venv/bin/accelerate",
      "/m/src/musubi_tuner/flux_2_train_network.py",
      "/m/src/musubi_tuner/flux_2_cache_latents.py",
      "/m/src/musubi_tuner/flux_2_cache_text_encoder_outputs.py",
      "/models/dit", "/models/vae", "/models/te"],
    readFile := fun _ => "", isDir := fun _ => false,
    listDir := fun _ => [], mtimeStr := fun _ => "0",
    resolvePath := fun _ n => "/models/" ++ n,
    exitLatents := 0, exitTE := 0, exitTrain := 0, timestamp := "T",
    tempDir := "/tmp/w",
    fsAfterTrain := fun s => s = "/m/output/MyLora_4b_T.safetensors",
    listOutAfterTrain := [] }

/-- Witness for C4: the dangling entry is purged and persisted before the
miss-build, which re-records the fingerprint at the new artifact path. -/
theorem cache_self_healing_witness :
    cacheLookup [(inlineHashOf reqHit, "/gone.safetensors")] (inlineHashOf reqHit)
        = some "/gone.safetensors"
    ∧ worldHeal.fs "/gone.safetensors" = false
    ∧ trainRun presetsFix worldHeal reqHit [(inlineHashOf reqHit, "/gone.safetensors")]
        = ⟨.ok (outputCandidate (trimStr reqHit.musubiPath ++ "/output")
              (reqHit.outputName ++ "_" ++ "4b" ++ "_" ++ worldHeal.timestamp)),
            [.saveConfig, .saveCache, .mkTemp,
              .stage "flux_2_cache_latents" 0,
              .stage "flux_2_cache_text_encoder_outputs" 0,
              .stage "flux_2_train_network" 0, .saveCache, .rmTemp],
            cacheInsert
              (cacheErase [(inlineHashOf reqHit, "/gone.safetensors")] (inlineHashOf reqHit))
              (inlineHashOf reqHit)
              (outputCandidate (trimStr reqHit.musubiPath ++ "/output")
                (reqHit.outputName ++ "_" ++ "4b" ++ "_" ++ worldHeal.timestamp))⟩ :=
  ⟨by decide, by decide,
    cache_self_healing presetsFix worldHeal reqHit
      [(inlineHashOf reqHit, "/gone.safetensors")] "/gone.safetensors"
      rfl (by decide) (by decide) (by decide) (by decide) (by decide) (by decide)
      (by decide) (by decide) (by decide) (by decide) (by decide) (by decide)
      rfl (by decide) (by decide) rfl (by decide) (by decide) rfl rfl rfl (by decide)⟩

/-- World fixture for the fail-fast witness: the second pipeline stage exits
with code 2. -/
def worldTeFail : World :=
  { fs := fun s => s ∈ ["/m/.venv/bin/accelerate",
      "/m/src/musubi_tuner/flux_2_train_network.py",
      "/m/src/musubi_tuner/flux_2_cache_latents.py",
      "/m/src/musubi_tuner/flux_2_cache_text_encoder_outputs.py",
      "/models/dit", "/models/vae", "/models/te"],
    readFile := fun _ => "", isDir := fun _ => false,
    listDir := fun _ => [], mtimeStr := fun _ => "0",
    resolvePath := fun _ n => "/models/" ++ n,
    exitLatents := 0, exitTE := 2, exitTrain := 0, timestamp := "T",
    tempDir := "/tmp/w", fsAfterTrain := fun _ => false, listOutAfterTrain := [] }

/-- Witness for C5: with the text-encoder pre-cache exiting 2, the run fails
with that stage identity and code, the training stage never runs, and the
workspace-removal event closes the trace. -/
theorem te_stage_failfast_witness :
    worldTeFail.exitTE = 2 ∧ (2 : Int) ≠ 0
    ∧ trainRun presetsFix worldTeFail reqNoKeep []
        = ⟨.error (.stageFailed "Text encoder caching" 2),
            [.saveConfig, .mkTemp,
              .stage "flux_2_cache_latents" 0,
              .stage "flux_2_cache_text_encoder_outputs" 2, .rmTemp],
            []⟩ :=
  ⟨rfl, by decide,
    te_stage_failfast presetsFix worldTeFail reqNoKeep [] 2
      (Or.inl rfl) (by decide) (by decide) (by decide) (by decide) (by decide)
      (by decide) (by decide) (by decide) (by decide) (by decide) rfl
      (by decide) (by decide) rfl rfl (by decide)⟩

/-! ## C6: swap-budget clamping and flag emission -/

theorem mem_of_mem_ite_nil {α} {c : Prop} [Decidable c] {a : α} {l : List α}
    (h : a ∈ if c then l else []) : a ∈ l := by
  split at h
  · exact h
  · simp at h

/-- No string whose first three characters are not `--b` equals the
swap-budget flag. -/
theorem flag_ne_lit (b u : String)
    (h : u.data.take 3 ≠ ['-', '-', 'b']) : "--blocks_to_swap=" ++ b ≠ u := by
  intro heq
  have hd := congrArg String.data heq
  simp only [String.data_append] at hd
  have h3 : (String.data "--blocks_to_swap=" ++ b.data).take 3 = u.data.take 3 := by rw [hd]
  rw [List.take_append_of_le_length (by decide)] at h3
  apply h
  rw [← h3]
  decide

/-- No string with a payload appended to a prefix whose first three
characters are not `--b` equals the swap-budget flag. -/
theorem flag_ne_pre (b p a : String) (hl : 3 ≤ p.data.length)
    (h : p.data.take 3 ≠ ['-', '-', 'b']) : "--blocks_to_swap=" ++ b ≠ p ++ a := by
  intro heq
  have hd := congrArg String.data heq
  simp only [String.data_append] at hd
  have h3 : (String.data "--blocks_to_swap=" ++ b.data).take 3 = (p.data ++ a.data).take 3 := by
    rw [hd]
  rw [List.take_append_of_le_length (by decide), List.take_append_of_le_length hl] at h3
  apply h
  rw [← h3]
  decide

theorem effectiveBlocksCalc_eq_min (requested presetDefault maxBlocks : Nat) :
    effectiveBlocksCalc requested presetDefault maxBlocks
      = min (if 0 < requested then requested else presetDefault) maxBlocks := by
  simp only [effectiveBlocksCalc, effectiveBlocks, clampBlocks]
  split_ifs <;> omega

/-- C6.  Swap-budget clamping and emission.  The effective swap budget the
training stage sees is the request's value when positive (else the preset
default) clamped to the variant ceiling — so a request exactly at the
ceiling passes through unchanged and a request of ceiling+1 is reduced to
the ceiling — and the `--blocks_to_swap` flag appears in the training-stage
argument list iff that effective value is positive.  (The two disequality
hypotheses rule out the degenerate case of the accelerate-executable or
training-script *path* textually equalling the flag.) -/
theorem swap_budget_clamp_emission (accel trainScript : String) (preset : Preset)
    (ditPath vaePath tePath configPath modelVersion lr : String) (rank steps : Nat)
    (outputFolder runName : String) (requested maxBlocks : Nat)
    (hAcc : accel ≠ "--blocks_to_swap="
      ++ natStr (effectiveBlocksCalc requested preset.blocksToSwap maxBlocks))
    (hTs : trainScript ≠ "--blocks_to_swap="
      ++ natStr (effectiveBlocksCalc requested preset.blocksToSwap maxBlocks)) :
    effectiveBlocksCalc requested preset.blocksToSwap maxBlocks
        = min (if 0 < requested then requested else preset.blocksToSwap) maxBlocks
    ∧ (requested = maxBlocks →
        effectiveBlocksCalc requested preset.blocksToSwap maxBlocks = maxBlocks)
    ∧ (requested = maxBlocks + 1 →
        effectiveBlocksCalc requested preset.blocksToSwap maxBlocks = maxBlocks)
    ∧ (("--blocks_to_swap="
          ++ natStr (effectiveBlocksCalc requested preset.blocksToSwap maxBlocks))
        ∈ buildTrainCmd accel trainScript preset ditPath vaePath tePath configPath
            modelVersion lr rank steps outputFolder runName
            (effectiveBlocksCalc requested preset.blocksToSwap maxBlocks)
      ↔ 0 < effectiveBlocksCalc requested preset.blocksToSwap maxBlocks) := by
  refine ⟨effectiveBlocksCalc_eq_min _ _ _, ?_, ?_, ?_⟩
  · intro h
    subst h
    rw [effectiveBlocksCalc_eq_min]
    split_ifs <;> omega
  · intro h
    subst h
    rw [effectiveBlocksCalc_eq_min]
    split_ifs <;> omega
  · set e := effectiveBlocksCalc requested preset.blocksToSwap maxBlocks with hE
    constructor
    · intro hmem
      by_contra he
      have he0 : e = 0 := by omega
      rw [he0] at hmem hAcc hTs
      simp only [buildTrainCmd, Nat.lt_irrefl, if_false, List.append_nil,
        List.mem_append, List.mem_cons, List.not_mem_nil, or_false, or_assoc] at hmem
      rcases hmem with h | h | h | h | h | h | h | h | h | h | h | h | h | h | h | h |
          h | h | h | h | h | h | h | h | h | h | h | h
      · exact hAcc h.symm
      · exact flag_ne_lit _ _ (by decide) h
      · exact flag_ne_lit _ _ (by decide) h
      · exact flag_ne_pre _ _ _ (by decide) (by decide) h
      · exact hTs h.symm
      · exact flag_ne_pre _ _ _ (by decide) (by decide) h
      · exact flag_ne_pre _ _ _ (by decide) (by decide) h
      · exact flag_ne_pre _ _ _ (by decide) (by decide) h
      · exact flag_ne_pre _ _ _ (by decide) (by decide) h
      · exact flag_ne_pre _ _ _ (by decide) (by decide) h
      · exact flag_ne_lit _ _ (by decide) h
      · exact flag_ne_pre _ _ _ (by decide) (by decide) h
      · exact flag_ne_lit _ _ (by decide) h
      · exact flag_ne_lit _ _ (by decide) h
      · exact flag_ne_pre _ _ _ (by decide) (by decide) h
      · exact flag_ne_pre _ _ _ (by decide) (by decide) h
      · exact flag_ne_lit _ _ (by decide) h
      · exact flag_ne_pre _ _ _ (by decide) (by decide) h
      · exact flag_ne_pre _ _ _ (by decide) (by decide) h
      · exact flag_ne_pre _ _ _ (by decide) (by decide) h
      · exact flag_ne_lit _ _ (by decide) h
      · exact flag_ne_lit _ _ (by decide) h
      · exact flag_ne_pre _ _ _ (by decide) (by decide) h
      · exact flag_ne_pre _ _ _ (by decide) (by decide) h
      · exact flag_ne_lit _ _ (by decide) h
      · have h' := mem_of_mem_ite_nil h
        simp only [List.mem_singleton] at h'
        exact flag_ne_lit _ _ (by decide) h'
      · have h' := mem_of_mem_ite_nil h
        simp only [List.mem_cons, List.not_mem_nil, or_false] at h'
        rcases h' with h' | h'
        · exact flag_ne_lit _ _ (by decide) h'
        · exact flag_ne_lit _ _ (by decide) h'
      · have h' := mem_of_mem_ite_nil h
        simp only [List.mem_singleton] at h'
        exact flag_ne_lit _ _ (by decide) h'
    · intro he
      refine List.mem_append_right _ ?_
      simp [he]

/-- Witness for C6: variant ceiling 13, requested ceiling+1 = 14: the
effective budget is clamped to 13 and the flag `--blocks_to_swap=13` is in
the training command. -/
theorem swap_budget_clamp_emission_witness :
    ("acc" : String) ≠ "--blocks_to_swap=" ++ natStr (effectiveBlocksCalc 14 14 13)
    ∧ ("ts" : String) ≠ "--blocks_to_swap=" ++ natStr (effectiveBlocksCalc 14 14 13)
    ∧ (effectiveBlocksCalc 14 presetLow.blocksToSwap 13
        = min (if 0 < 14 then 14 else presetLow.blocksToSwap) 13
      ∧ (14 = 13 → effectiveBlocksCalc 14 presetLow.blocksToSwap 13 = 13)
      ∧ (14 = 13 + 1 → effectiveBlocksCalc 14 presetLow.blocksToSwap 13 = 13)
      ∧ (("--blocks_to_swap=" ++ natStr (effectiveBlocksCalc 14 presetLow.blocksToSwap 13))
          ∈ buildTrainCmd "acc" "ts" presetLow "d" "v" "t" "cfg" "klein-base-4b" "0.0001"
              32 400 "/m/output" "MyLora_4b_T" (effectiveBlocksCalc 14 presetLow.blocksToSwap 13)
        ↔ 0 < effectiveBlocksCalc 14 presetLow.blocksToSwap 13)) :=
  ⟨by decide, by decide,
    swap_budget_clamp_emission "acc" "ts" presetLow "d" "v" "t" "cfg" "klein-base-4b"
      "0.0001" 32 400 "/m/output" "MyLora_4b_T" 14 13 (by decide) (by decide)⟩

/-! ## C7: directory staging -/

/-- C7.  Directory staging: the recognized image files of a directory
listing are enumerated in code-point lexicographic order (sorted, and a
permutation of exactly the recognized files); staging then produces one
staged sample and one label file per recognized file, under 1-based
zero-padded index naming, where the i-th label file contains the
whitespace-stripped contents of the same-stem `.txt` caption file when it
exists and the request-level default caption otherwise, and the i-th staged
image keeps its source extension. -/
theorem directory_staging (ex : String → Bool) (read : String → String)
    (dir defaultCap : String) (listing : List String) (i : Nat) (nm : String)
    (hnm : (folderNames listing)[i]? = some nm) :
    (folderNames listing).Pairwise strLeRel
    ∧ (folderNames listing).Perm (listing.filter isImageFile)
    ∧ (stagedLabels ((folderNames listing).map
        (folderCaptionFor ex read dir defaultCap))).length = (folderNames listing).length
    ∧ (stagedImages ((folderNames listing).map (fun f => dir ++ "/" ++ f))).length
        = (folderNames listing).length
    ∧ (stagedLabels ((folderNames listing).map
          (folderCaptionFor ex read dir defaultCap)))[i]?
        = some ("image_" ++ pad3 (i + 1) ++ ".txt",
            if ex (dir ++ "/" ++ (splitExt nm).1 ++ ".txt")
            then trimStr (read (dir ++ "/" ++ (splitExt nm).1 ++ ".txt"))
            else defaultCap)
    ∧ (stagedImages ((folderNames listing).map (fun f => dir ++ "/" ++ f)))[i]?
        = some ("image_" ++ pad3 (i + 1) ++ (splitExt (dir ++ "/" ++ nm)).2) := by
  refine ⟨(sortStrings_sorted listing).filter isImageFile,
    (sortStrings_perm listing).filter isImageFile, ?_, ?_, ?_, ?_⟩
  · simp [stagedLabels]
  · simp [stagedImages]
  · simp [stagedLabels, List.getElem?_map, List.getElem?_enum, hnm, folderCaptionFor]
  · simp [stagedImages, List.getElem?_map, List.getElem?_enum, hnm]

/-- Witness for C7, matching the spec's test shape (N = 5 recognized
images, M = 2 caption files at sorted indices 0 and 3): the sample at index
3 (`e.PNG`, found case-insensitively) gets the stripped contents of
`/d/e.txt`, and staging uses 1-based zero-padded names. -/
theorem directory_staging_witness :
    (folderNames ["e.PNG", "b.jpg", "notes.txt", "a.png", "x.bmp", "c.webp"])[3]?
        = some "e.PNG"
    ∧ ((folderNames ["e.PNG", "b.jpg", "notes.txt", "a.png", "x.bmp", "c.webp"]).Pairwise strLeRel
      ∧ (folderNames ["e.PNG", "b.jpg", "notes.txt", "a.png", "x.bmp", "c.webp"]).Perm
          (["e.PNG", "b.jpg", "notes.txt", "a.png", "x.bmp", "c.webp"].filter isImageFile)
      ∧ (stagedLabels ((folderNames ["e.PNG", "b.jpg", "notes.txt", "a.png", "x.bmp", "c.webp"]).map
          (folderCaptionFor (fun s => s ∈ ["/d/a.txt", "/d/e.txt"]) (fun _ => " cap ")
            "/d" "photo"))).length
          = (folderNames ["e.PNG", "b.jpg", "notes.txt", "a.png", "x.bmp", "c.webp"]).length
      ∧ (stagedImages ((folderNames ["e.PNG", "b.jpg", "notes.txt", "a.png", "x.bmp", "c.webp"]).map
          (fun f => "/d" ++ "/" ++ f))).length
          = (folderNames ["e.PNG", "b.jpg", "notes.txt", "a.png", "x.bmp", "c.webp"]).length
      ∧ (stagedLabels ((folderNames ["e.PNG", "b.jpg", "notes.txt", "a.png", "x.bmp", "c.webp"]).map
            (folderCaptionFor (fun s => s ∈ ["/d/a.txt", "/d/e.txt"]) (fun _ => " cap ")
              "/d" "photo")))[3]?
          = some ("image_" ++ pad3 (3 + 1) ++ ".txt",
              if (fun s => s ∈ ["/d/a.txt", "/d/e.txt"]) ("/d" ++ "/" ++ (splitExt "e.PNG").1 ++ ".txt")
              then trimStr ((fun _ => " cap ") ("/d" ++ "/" ++ (splitExt "e.PNG").1 ++ ".txt"))
              else "photo")
      ∧ (stagedImages ((folderNames ["e.PNG", "b.jpg", "notes.txt", "a.png", "x.bmp", "c.webp"]).map
            (fun f => "/d" ++ "/" ++ f)))[3]?
          = some ("image_" ++ pad3 (3 + 1) ++ (splitExt ("/d" ++ "/" ++ "e.PNG")).2)) :=
  ⟨by decide,
    directory_staging (fun s => s ∈ ["/d/a.txt", "/d/e.txt"]) (fun _ => " cap ")
      "/d" "photo" ["e.PNG", "b.jpg", "notes.txt", "a.png", "x.bmp", "c.webp"] 3 "e.PNG"
      (by decide)⟩

/-! ## C9: artifact resolution -/

/-- C9, amended.  Artifact resolution after a successful training stage:
the exact expected file is returned when it exists; otherwise the output
directory listing is scanned for files whose name starts with the run name
and ends with `.safetensors`, and the LAST match in directory-enumeration
order is returned (the source indexes `possible_files[-1]` over the
unsorted `os.listdir` result, so this is enumeration order, not the
lexicographically last match — see the counterexample); if no candidate
exists, the run fails with the "no LoRA file found" error rather than
returning an empty result. -/
theorem artifact_resolution (ex : String → Bool) (listing : List String)
    (outputFolder runName expectedPath : String) :
    (ex expectedPath = true →
      resolveArtifact ex listing outputFolder runName expectedPath = .ok expectedPath)
    ∧ (ex expectedPath = false →
      (listing.filter (fun f => startsWithStr f runName && endsWithStr f ".safetensors") = [] →
        resolveArtifact ex listing outputFolder runName expectedPath
          = .error (.noLora ("No LoRA file found in " ++ outputFolder)))
      ∧ ∀ (l : List String) (f : String),
          listing.filter (fun f => startsWithStr f runName && endsWithStr f ".safetensors")
            = l ++ [f] →
          resolveArtifact ex listing outputFolder runName expectedPath
              = .ok (outputFolder ++ "/" ++ f)
            ∧ startsWithStr f runName = true ∧ endsWithStr f ".safetensors" = true) := by
  constructor
  · intro hex
    simp [resolveArtifact, hex]
  · intro hex
    constructor
    · intro hfl
      simp [resolveArtifact, hex, hfl]
    · intro l f hfl
      have hmem : f ∈ listing.filter
          (fun f => startsWithStr f runName && endsWithStr f ".safetensors") := by
        rw [hfl]
        exact List.mem_append_right l (List.mem_singleton_self f)
      have hp := (List.mem_filter.mp hmem).2
      rw [Bool.and_eq_true] at hp
      refine ⟨?_, hp.1, hp.2⟩
      simp [resolveArtifact, hex, hfl, List.getLast?_concat]

/-- Witness for C9's amended theorem: with the expected file absent and two
matches in enumeration order, the last one is returned. -/
theorem artifact_resolution_witness :
    ((fun (_ : String) => false) "/out/r.safetensors") = false
    ∧ (["r_a.safetensors", "r_b.safetensors"].filter
        (fun f => startsWithStr f "r" && endsWithStr f ".safetensors"))
      = ["r_a.safetensors"] ++ ["r_b.safetensors"]
    ∧ (resolveArtifact (fun _ => false) ["r_a.safetensors", "r_b.safetensors"]
          "/out" "r" "/out/r.safetensors" = .ok ("/out" ++ "/" ++ "r_b.safetensors")
        ∧ startsWithStr "r_b.safetensors" "r" = true
        ∧ endsWithStr "r_b.safetensors" ".safetensors" = true) :=
  ⟨rfl, by decide,
    ((artifact_resolution (fun _ => false) ["r_a.safetensors", "r_b.safetensors"]
        "/out" "r" "/out/r.safetensors").2 rfl).2
      ["r_a.safetensors"] "r_b.safetensors" (by decide)⟩

/-- C9, counterexample.  The claim says the lexicographically last match is
returned, but the source takes `possible_files[-1]` of the UNSORTED
`os.listdir` enumeration (unlike the staging loop, which sorts): with the
directory enumerated as `[r_b, r_a]`, resolution returns `r_a.safetensors`
even though the lexicographically last match is `r_b.safetensors`. -/
theorem artifact_resolution_lex_counterexample :
    resolveArtifact (fun _ => false) ["r_b.safetensors", "r_a.safetensors"]
        "/out" "r" "/out/r.safetensors" = .ok "/out/r_a.safetensors"
    ∧ "r_b.safetensors" ∈ (["r_b.safetensors", "r_a.safetensors"].filter
        (fun f => startsWithStr f "r" && endsWithStr f ".safetensors"))
    ∧ strLe "r_a.safetensors" "r_b.safetensors" = true
    ∧ "r_a.safetensors" ≠ "r_b.safetensors" := by
  exact ⟨by decide, by decide, by decide, by decide⟩

/-! ## C10: fresh output path on a cache miss -/

/-- The candidate paths derived from distinct counters are distinct
strings. -/
theorem outputCandidate_inj (folder nm : String) {a b : Nat}
    (h : outputCandidate folder (nm ++ "_" ++ natStr a)
      = outputCandidate folder (nm ++ "_" ++ natStr b)) : a = b := by
  have hd := congrArg String.data h
  simp only [outputCandidate, String.data_append, List.append_assoc] at hd
  iterate 4 replace hd := List.append_cancel_left hd
  exact natStr_injective (string_data_inj (List.append_cancel_right hd))

/-- Correctness of the `while`-loop search: given enough fuel to reach a
free counter, it returns the least counter `≥ k` whose derived path does
not exist. -/
theorem findFreeCounter_spec (ex : String → Bool) (folder nm : String) :
    ∀ (fuel k : Nat),
    (∃ j, k ≤ j ∧ j < k + fuel ∧ ex (outputCandidate folder (nm ++ "_" ++ natStr j)) = false) →
    k ≤ findFreeCounter ex folder nm k fuel
    ∧ ex (outputCandidate folder
        (nm ++ "_" ++ natStr (findFreeCounter ex folder nm k fuel))) = false
    ∧ ∀ j, k ≤ j → j < findFreeCounter ex folder nm k fuel →
        ex (outputCandidate folder (nm ++ "_" ++ natStr j)) = true := by
  intro fuel
  induction fuel with
  | zero =>
    intro k hex
    obtain ⟨j, hj1, hj2, _⟩ := hex
    omega
  | succ f ih =>
    intro k hex
    by_cases hk : ex (outputCandidate folder (nm ++ "_" ++ natStr k)) = true
    · have hrec : ∃ j, k + 1 ≤ j ∧ j < (k + 1) + f
          ∧ ex (outputCandidate folder (nm ++ "_" ++ natStr j)) = false := by
        obtain ⟨j, hj1, hj2, hj3⟩ := hex
        refine ⟨j, ?_, by omega, hj3⟩
        rcases Nat.eq_or_lt_of_le hj1 with h | h
        · exfalso
          rw [← h, hk] at hj3
          simp at hj3
        · omega
      obtain ⟨h1, h2, h3⟩ := ih (k + 1) hrec
      have heq : findFreeCounter ex folder nm k (f + 1)
          = findFreeCounter ex folder nm (k + 1) f := by
        simp [findFreeCounter, hk]
      rw [heq]
      refine ⟨by omega, h2, ?_⟩
      intro j hj1 hj2
      rcases Nat.eq_or_lt_of_le hj1 with h | h
      · rw [← h]; exact hk
      · exact h3 j (by omega) hj2
    · have hk' : ex (outputCandidate folder (nm ++ "_" ++ natStr k)) = false := by
        revert hk
        cases ex (outputCandidate folder (nm ++ "_" ++ natStr k)) <;> simp
      have heq : findFreeCounter ex folder nm k (f + 1) = k := by
        simp [findFreeCounter, hk']
      rw [heq]
      exact ⟨le_rfl, hk', fun j hj1 hj2 => by omega⟩

/-- When the existing files are contained in a finite list `L`, some
counter in `1 … L.length + 1` has a free derived path (pigeonhole over the
distinct candidate names). -/
theorem exists_free_counter (ex : String → Bool) (folder nm : String) (L : List String)
    (hsupp : ∀ s, ex s = true → s ∈ L) :
    ∃ j, 1 ≤ j ∧ j < 1 + (L.length + 1)
      ∧ ex (outputCandidate folder (nm ++ "_" ++ natStr j)) = false := by
  by_contra hc
  push_neg at hc
  have hall : ∀ j, 1 ≤ j → j < L.length + 2 →
      ex (outputCandidate folder (nm ++ "_" ++ natStr j)) = true := by
    intro j h1 h2
    have := hc j h1 (by omega)
    revert this
    cases ex (outputCandidate folder (nm ++ "_" ++ natStr j)) <;> simp
  set M := (List.range (L.length + 1)).map
    (fun t => outputCandidate folder (nm ++ "_" ++ natStr (t + 1))) with hM
  have hnodupM : M.Nodup := by
    refine List.Nodup.map ?_ (List.nodup_range _)
    intro a b hab
    have := outputCandidate_inj folder nm hab
    omega
  have hsubM : M ⊆ L := by
    intro s hs
    rw [hM, List.mem_map] at hs
    obtain ⟨t, ht, rfl⟩ := hs
    rw [List.mem_range] at ht
    exact hsupp _ (hall (t + 1) (by omega) (by omega))
  have hlenM : M.length = L.length + 1 := by simp [hM]
  have hcard : M.toFinset.card ≤ L.toFinset.card := by
    apply Finset.card_le_card
    intro x hx
    rw [List.mem_toFinset] at hx ⊢
    exact hsubM hx
  rw [List.toFinset_card_of_nodup hnodupM] at hcard
  have := List.toFinset_card_le L
  omega

/-- C10.  Fresh output path: on a cache miss, the artifact path chosen
before any stage runs never names an existing file — when the
run-name-derived path already exists, the run name is suffixed with the
smallest positive counter whose derived `.safetensors` path is free, and a
free run name is kept unchanged.  (`L` is any finite list containing every
existing file, and the fuel bound matches what the orchestrator passes.) -/
theorem fresh_output_path (ex : String → Bool) (folder nm : String) (L : List String)
    (hsupp : ∀ s, ex s = true → s ∈ L) (fuel : Nat) (hfuel : L.length + 1 ≤ fuel) :
    ex (chooseOutputName ex folder nm fuel).2 = false
    ∧ (ex (outputCandidate folder nm) = false →
        chooseOutputName ex folder nm fuel = (nm, outputCandidate folder nm))
    ∧ (ex (outputCandidate folder nm) = true →
        ∃ c, 1 ≤ c ∧ chooseOutputName ex folder nm fuel
            = (nm ++ "_" ++ natStr c, outputCandidate folder (nm ++ "_" ++ natStr c))
          ∧ ex (outputCandidate folder (nm ++ "_" ++ natStr c)) = false
          ∧ ∀ j, 1 ≤ j → j < c →
              ex (outputCandidate folder (nm ++ "_" ++ natStr j)) = true) := by
  by_cases hex : ex (outputCandidate folder nm) = true
  · obtain ⟨j, hj1, hj2, hj3⟩ := exists_free_counter ex folder nm L hsupp
    have hexr : ∃ j, 1 ≤ j ∧ j < 1 + fuel
        ∧ ex (outputCandidate folder (nm ++ "_" ++ natStr j)) = false :=
      ⟨j, hj1, by omega, hj3⟩
    obtain ⟨h1, h2, h3⟩ := findFreeCounter_spec ex folder nm fuel 1 hexr
    have hch : chooseOutputName ex folder nm fuel
        = (nm ++ "_" ++ natStr (findFreeCounter ex folder nm 1 fuel),
          outputCandidate folder (nm ++ "_" ++ natStr (findFreeCounter ex folder nm 1 fuel))) := by
      simp [chooseOutputName, hex]
    refine ⟨by rw [hch]; exact h2, fun hf => by rw [hf] at hex; exact absurd hex (by simp), ?_⟩
    intro _
    exact ⟨findFreeCounter ex folder nm 1 fuel, h1, hch, h2, h3⟩
  · have hex' : ex (outputCandidate folder nm) = false := by
      revert hex
      cases ex (outputCandidate folder nm) <;> simp
    have hch : chooseOutputName ex folder nm fuel = (nm, outputCandidate folder nm) := by
      simp [chooseOutputName, hex']
    refine ⟨by rw [hch]; exact hex', fun _ => hch, fun hf => absurd hf hex⟩

/-- Witness for C10: with `/o/r.safetensors` and `/o/r_1.safetensors`
existing, the chosen run name is `r_2` and its path is free, counter 1
having been skipped as taken. -/
theorem fresh_output_path_witness :
    (∀ s, (decide (s ∈ ["/o/r.safetensors", "/o/r_1.safetensors"]) : Bool) = true →
        s ∈ ["/o/r.safetensors", "/o/r_1.safetensors"])
    ∧ (["/o/r.safetensors", "/o/r_1.safetensors"] : List String).length + 1 ≤ 3
    ∧ ((fun s => decide (s ∈ ["/o/r.safetensors", "/o/r_1.safetensors"]))
        (chooseOutputName (fun s => decide (s ∈ ["/o/r.safetensors", "/o/r_1.safetensors"]))
          "/o" "r" 3).2 : Bool) = false :=
  ⟨fun s hs => of_decide_eq_true hs, by decide,
    (fresh_output_path (fun s => decide (s ∈ ["/o/r.safetensors", "/o/r_1.safetensors"]))
      "/o" "r" ["/o/r.safetensors", "/o/r_1.safetensors"]
      (fun s hs => of_decide_eq_true hs) 3 (by decide)).1⟩

end MusubiFluxKlein
